import Mathlib

/-!
Shallow embedding of the contract-analyzer core in Lean 4.

The embedded code comes from:
  src/modules/contract_analyzer.py  (parse_analysis_response)
  src/modules/risk_detector.py      (detectors, scorer, recommender)
  src/modules/contract_comparator.py (create_automated_comparison)

Python string operations are re-implemented over List Char with structural
recursion so that every definition evaluates inside the kernel.  Python dicts
with optional keys are modelled with Option fields; the one fallible spot of
the parser (a KeyError reading current_item of the risks section) is modelled
by returning none.
-/

/-- Boolean infix test on character lists; mirrors the Python `needle in hay`
substring operator. -/
def isInfixOfL (needle hay : List Char) : Bool :=
  match hay with
  | [] => needle.isEmpty
  | _ :: rest => List.isPrefixOf needle hay || isInfixOfL needle rest

/-- Python `needle in hay` on strings. -/
def containsSubstr (hay needle : String) : Bool :=
  isInfixOfL needle.data hay.data

/-- Python `str.strip()` on a character list. -/
def pyStripL (cs : List Char) : List Char :=
  ((cs.dropWhile Char.isWhitespace).reverse.dropWhile Char.isWhitespace).reverse

/-- Python `str.strip()`. -/
def pyStrip (s : String) : String := String.mk (pyStripL s.data)

/-- Python `str.upper()` (ASCII range, which is all the code compares). -/
def pyUpper (s : String) : String := String.mk (s.data.map Char.toUpper)

/-- Python `str.lower()` (ASCII range). -/
def pyLower (s : String) : String := String.mk (s.data.map Char.toLower)

/-- Python `len(s)`: number of characters. -/
def pyLen (s : String) : Nat := s.data.length

/-- Fuel-based worker for Python `str.split(sep)` with a non-empty separator:
split at every non-overlapping occurrence, scanning left to right. -/
def splitOnCharsFuel (sep : List Char) : Nat → List Char → List (List Char)
  | _, [] => [[]]
  | 0, s => [s]
  | fuel + 1, c :: rest =>
    if List.isPrefixOf sep (c :: rest) then
      [] :: splitOnCharsFuel sep fuel (List.drop (sep.length - 1) rest)
    else
      match splitOnCharsFuel sep fuel rest with
      | [] => [[c]]
      | p :: ps => (c :: p) :: ps

/-- Python `s.split(sep)` for a non-empty separator. -/
def pySplit (s sep : String) : List String :=
  (splitOnCharsFuel sep.data s.data.length s.data).map String.mk

/-- Join character lists with a separator; used for Python `' '.join(...)`. -/
def joinSep (sep : List Char) : List (List Char) → List Char
  | [] => []
  | [p] => p
  | p :: ps => p ++ sep ++ joinSep sep ps

/-- Python `' '.join(s.split())`: collapse whitespace runs to single spaces
and drop leading and trailing whitespace. -/
def normSpaces (s : String) : String :=
  String.mk (joinSep [' ']
    ((List.splitOnP Char.isWhitespace s.data).filter (fun w => !w.isEmpty)))

/-- Python `s.replace(one-char-string, "")`: delete every occurrence of a
character.  Used for `line.replace("#", "")`, and for the summary markdown
cleanup of the parser: the pipeline of `re.sub` over `\*\*([^*]+)\*\*` and
`\*([^*]+)\*` followed by `replace("**", "").replace("*", "")` only ever
deletes asterisk characters and deletes all of them, so its net effect on the
text is exactly the deletion of every asterisk. -/
def removeAllChar (c : Char) (s : String) : String :=
  String.mk (s.data.filter (fun d => d ≠ c))

/-- Python `s.startswith(pre)`. -/
def pyStartsWith (s pre : String) : Bool := List.isPrefixOf pre.data s.data

/-- Python `s.lstrip(chars)`: drop leading characters belonging to the set. -/
def lstrip (chars : List Char) (s : String) : String :=
  String.mk (s.data.dropWhile (fun c => chars.contains c))

/-- Prefix of `hay` that precedes the first case-insensitive occurrence of
`needle`; mirrors `re.split(needle, hay, flags=IGNORECASE)[0]`. -/
def splitBeforeCI (needle : List Char) : List Char → List Char
  | [] => []
  | c :: rest =>
    if List.isPrefixOf (needle.map Char.toLower) ((c :: rest).map Char.toLower) then []
    else c :: splitBeforeCI needle rest

/-- Python `re.sub(r"^\d+\.?\s*", "", s)`: if the string starts with digits,
drop them, one optional dot, and following whitespace. -/
def stripNum (s : String) : String :=
  match s.data with
  | [] => s
  | c :: _ =>
    if c.isDigit then
      let rest := s.data.dropWhile Char.isDigit
      let rest :=
        match rest with
        | '.' :: r => r
        | r => r
      String.mk (rest.dropWhile Char.isWhitespace)
    else s

/-- Python `summary[0].upper() + summary[1:]` guarded by non-emptiness. -/
def capitalizeFirst (s : String) : String :=
  match s.data with
  | [] => s
  | c :: cs => String.mk (c.toUpper :: cs)

/-! ## Free-text response parser (contract_analyzer.py, parse_analysis_response) -/

/-- The current-section pointer of the parser. -/
inductive SectionTag where
  | summary
  | key_terms
  | risks
  | red_flags
  | missing_clauses
  | recommendations
deriving DecidableEq, Repr

/-- One risk item of the parser: a dict that always carries a `level` key and
may lack the `text` key (the dict `{"level": l}` produced when a Risk Level
line arrives before any item marker). -/
structure RiskEntry where
  text : Option String
  level : String
deriving DecidableEq, Repr

/-- The mutable state of the line scan: the result fields under construction
plus `current_section` and `current_item`.  `current_item = none` models the
empty (falsy) dict. -/
structure ScanState where
  summary : String
  overall_risk : String
  key_terms : List String
  risks : List RiskEntry
  red_flags : List String
  missing_clauses : List String
  recommendations : List String
  current_section : Option SectionTag
  current_item : Option RiskEntry
deriving DecidableEq, Repr

/-- The structured result of the parser. -/
structure AnalysisResult where
  summary : String
  overall_risk : String
  key_terms : List String
  risks : List RiskEntry
  red_flags : List String
  missing_clauses : List String
  recommendations : List String
deriving DecidableEq, Repr

/-- Initial parser state, lines 75-88 of contract_analyzer.py. -/
def initState : ScanState :=
  { summary := ""
    overall_risk := "MEDIUM"
    key_terms := []
    risks := []
    red_flags := []
    missing_clauses := []
    recommendations := []
    current_section := none
    current_item := none }

/-- Section-header detection, lines 96-119: clean the line of `#`, strip a
leading item number, upper-case, then match the fixed header substrings in
order. -/
def sectionOfLine (line : String) : Option SectionTag :=
  let cu := pyUpper (stripNum (pyStrip (removeAllChar '#' line)))
  if containsSubstr cu "EXECUTIVE SUMMARY" then some SectionTag.summary
  else if containsSubstr cu "KEY TERMS" then some SectionTag.key_terms
  else if containsSubstr cu "RISK ASSESSMENT" then some SectionTag.risks
  else if containsSubstr cu "RED FLAGS" || containsSubstr cu "RED FLAG" then
    some SectionTag.red_flags
  else if containsSubstr cu "MISSING CLAUSES" || containsSubstr cu "MISSING CLAUSE" then
    some SectionTag.missing_clauses
  else if containsSubstr cu "RECOMMENDATIONS" || containsSubstr cu "RECOMMENDATION" then
    some SectionTag.recommendations
  else none

/-- Fixed severity-token order used by both token searches of the parser. -/
def risk_levels : List String := ["CRITICAL", "HIGH", "MEDIUM", "LOW", "MINIMAL"]

/-- First severity token occurring in `line.upper()`, in the fixed order
CRITICAL, HIGH, MEDIUM, LOW, MINIMAL (lines 149-152 and 171-174). -/
def findToken (line : String) : Option String :=
  risk_levels.find? (fun tok => containsSubstr (pyUpper line) tok)

/-- Summary-section line handling, lines 122-156. -/
def handleSummary (st : ScanState) (line : String) : ScanState :=
  if pyStartsWith line "#" then st
  else
    let clean_text := normSpaces (removeAllChar '*' line)
    if containsSubstr (pyLower clean_text) "overall risk" then
      let summary_part := pyStrip (String.mk (splitBeforeCI "overall risk".data clean_text.data))
      let st1 :=
        if summary_part ≠ "" then
          { st with summary := st.summary ++ summary_part ++ " " }
        else st
      match findToken line with
      | some tok => { st1 with overall_risk := tok }
      | none => st1
    else if clean_text ≠ "" then
      { st with summary := st.summary ++ clean_text ++ " " }
    else st

/-- Key-terms line handling, lines 158-162. -/
def handleKeyTerms (st : ScanState) (line : String) : ScanState :=
  if pyStartsWith line "-" || pyStartsWith line "•" || pyStartsWith line "**-" then
    let clean_line := pyStrip (lstrip "-•* ".data line)
    if clean_line ≠ "" then { st with key_terms := st.key_terms ++ [clean_line] }
    else st
  else st

/-- Python `line and line[0].isdigit() and "." in line[:3]`. -/
def startsWithDigitDot (line : String) : Bool :=
  match line.data with
  | [] => false
  | c :: _ => c.isDigit && containsSubstr (String.mk (line.data.take 3)) "."

/-- A line that opens a new risk item inside the risks section (line 166). -/
def isRiskItemMarker (line : String) : Bool :=
  pyStartsWith line "**Risk" || pyStartsWith line "###" || pyStartsWith line "**Category"

/-- Risks-section line handling, lines 164-177.  Returns none exactly where
the Python raises KeyError: a continuation line arriving while the current
item dict lacks the `text` key. -/
def handleRisks (st : ScanState) (line : String) : Option ScanState :=
  if isRiskItemMarker line then
    some { st with
      risks := st.risks ++
        (match st.current_item with
         | some it => [it]
         | none => [])
      current_item := some { text := some (pyStrip (lstrip "#* ".data line)), level := "MEDIUM" } }
  else if containsSubstr line "Risk Level:" || containsSubstr line "**Risk Level**:" then
    match findToken line with
    | some tok =>
      match st.current_item with
      | none => some { st with current_item := some { text := none, level := tok } }
      | some it => some { st with current_item := some { it with level := tok } }
    | none => some st
  else
    match st.current_item with
    | none => some st
    | some it =>
      match it.text with
      | none => none
      | some t => some { st with current_item := some { it with text := some (t ++ " " ++ line) } }

/-- Red-flags and missing-clauses line handling, lines 179-183. -/
def handleBulletList (st : ScanState) (sec : SectionTag) (line : String) : ScanState :=
  if pyStartsWith line "-" || pyStartsWith line "•" || pyStartsWith line "**-" ||
      startsWithDigitDot line then
    let clean_line := pyStrip (lstrip "-•*0123456789. )".data line)
    if clean_line ≠ "" then
      match sec with
      | SectionTag.red_flags => { st with red_flags := st.red_flags ++ [clean_line] }
      | _ => { st with missing_clauses := st.missing_clauses ++ [clean_line] }
    else st
  else st

/-- Recommendations line handling, lines 185-189. -/
def handleRecommendations (st : ScanState) (line : String) : ScanState :=
  if pyStartsWith line "-" || pyStartsWith line "•" || startsWithDigitDot line then
    let clean_line := pyStrip (lstrip "-•0123456789. ".data line)
    if clean_line ≠ "" ∧ pyLen clean_line > 10 then
      { st with recommendations := st.recommendations ++ [clean_line] }
    else st
  else st

/-- One iteration of the scan loop, lines 90-189: strip the line, skip empty
lines, detect section headers, otherwise route by the current section. -/
def processLine (st : ScanState) (rawLine : String) : Option ScanState :=
  let line := pyStrip rawLine
  if line = "" then some st
  else
    match sectionOfLine line with
    | some sec => some { st with current_section := some sec }
    | none =>
      match st.current_section with
      | none => some st
      | some SectionTag.summary => some (handleSummary st line)
      | some SectionTag.key_terms => some (handleKeyTerms st line)
      | some SectionTag.risks => handleRisks st line
      | some SectionTag.red_flags => some (handleBulletList st SectionTag.red_flags line)
      | some SectionTag.missing_clauses => some (handleBulletList st SectionTag.missing_clauses line)
      | some SectionTag.recommendations => some (handleRecommendations st line)

/-- The whole scan loop over the split lines. -/
def scanLines : List String → ScanState → Option ScanState
  | [], st => some st
  | l :: ls, st =>
    match processLine st l with
    | none => none
    | some st1 => scanLines ls st1

/-- Per-risk step of the recommendation fallback, lines 204-211: re-scan one
accumulated risk text for an embedded Recommendation marker and lift the text
after it when that text is non-empty and longer than 20 characters. -/
def fallbackFromRisk (risk : RiskEntry) : Option String :=
  let risk_text := risk.text.getD ""
  if containsSubstr risk_text "**Recommendation**:" || containsSubstr risk_text "Recommendation:" then
    let parts := pySplit risk_text
      (if containsSubstr risk_text "**" then "ecommendation**:" else "ecommendation:")
    if parts.length > 1 then
      let recText := pyStrip (parts.getD 1 "")
      if recText ≠ "" ∧ pyLen recText > 20 then some recText else none
    else none
  else none

/-- End-of-scan flush, lines 191-193: append the in-flight risk item when the
scan ended inside the risks section. -/
def flushedRisks (st : ScanState) : List RiskEntry :=
  match st.current_item, st.current_section with
  | some it, some SectionTag.risks => st.risks ++ [it]
  | _, _ => st.risks

/-- End of the scan, lines 191-211: flush the in-flight risk item when the
scan ended inside the risks section, clean and capitalize the summary, and
run the recommendation fallback when fewer than 2 recommendations exist. -/
def finalize (st : ScanState) : AnalysisResult :=
  { summary := capitalizeFirst (pyStrip st.summary)
    overall_risk := st.overall_risk
    key_terms := st.key_terms
    risks := flushedRisks st
    red_flags := st.red_flags
    missing_clauses := st.missing_clauses
    recommendations :=
      if st.recommendations.length < 2 then
        st.recommendations ++ (flushedRisks st).filterMap fallbackFromRisk
      else st.recommendations }

/-- parse_analysis_response, lines 62-213.  Returns none exactly when the
Python function raises (the KeyError of handleRisks). -/
def parse_analysis_response (response_text : String) : Option AnalysisResult :=
  match scanLines (pySplit response_text "\n") initState with
  | none => none
  | some st => some (finalize st)

/-! ## Automated risk detector (risk_detector.py) -/

/-- A detector or parser risk dict as consumed by the scorer, recommender and
comparator.  The fields read through `dict.get` with a default are Options. -/
structure Risk where
  level : Option String
  category : Option String
  description : String
  impact : String
deriving DecidableEq, Repr

/-- detect_payment_risks, lines 12-52. -/
def detect_payment_risks (contract_text : String) : List Risk :=
  let text_lower := pyLower contract_text
  (if !containsSubstr text_lower "payment" && !containsSubstr text_lower "fee" then
    [{ level := some "HIGH", category := some "Payment Terms",
       description := "No clear payment terms found",
       impact := "Unclear payment obligations could lead to disputes" }]
   else []) ++
  (if !containsSubstr text_lower "late payment" && !containsSubstr text_lower "overdue" then
    [{ level := some "MEDIUM", category := some "Payment Terms",
       description := "No late payment terms specified",
       impact := "No protection against delayed payments" }]
   else []) ++
  (if !containsSubstr text_lower "payment schedule" && !containsSubstr text_lower "installment" then
    [{ level := some "LOW", category := some "Payment Terms",
       description := "No detailed payment schedule",
       impact := "May cause confusion about when payments are due" }]
   else [])

/-- detect_liability_risks, lines 55-95. -/
def detect_liability_risks (contract_text : String) : List Risk :=
  let text_lower := pyLower contract_text
  (if containsSubstr text_lower "liability" then
    (if containsSubstr text_lower "unlimited liability" || containsSubstr text_lower "no limit" then
      [{ level := some "CRITICAL", category := some "Liability",
         description := "Unlimited liability clause detected",
         impact := "Unlimited financial exposure in case of breach" }]
     else if !containsSubstr text_lower "cap" && !containsSubstr text_lower "limit" then
      [{ level := some "HIGH", category := some "Liability",
         description := "No liability cap specified",
         impact := "Potentially unlimited financial exposure" }]
     else [])
   else []) ++
  (if containsSubstr text_lower "indemnif" then
    (if containsSubstr text_lower "indemnify" && containsSubstr text_lower "hold harmless" then
      [{ level := some "MEDIUM", category := some "Liability",
         description := "Broad indemnification clause present",
         impact := "May be required to cover third-party claims" }]
     else [])
   else [])

/-- detect_termination_risks, lines 98-139. -/
def detect_termination_risks (contract_text : String) : List Risk :=
  let text_lower := pyLower contract_text
  (if !containsSubstr text_lower "termination" && !containsSubstr text_lower "cancel" then
    [{ level := some "HIGH", category := some "Termination",
       description := "No termination clause found",
       impact := "Unclear how to exit the contract" }]
   else []) ++
  (if !containsSubstr text_lower "notice" && containsSubstr text_lower "termination" then
    [{ level := some "MEDIUM", category := some "Termination",
       description := "No notice period specified",
       impact := "Unclear how much advance notice is required" }]
   else []) ++
  (if containsSubstr text_lower "early termination" then
    (if containsSubstr text_lower "penalty" || containsSubstr text_lower "fee" then
      [{ level := some "MEDIUM", category := some "Termination",
         description := "Early termination penalty exists",
         impact := "Cost to exit contract before term ends" }]
     else [])
   else [])

/-- The category-to-keywords table of detect_missing_clauses, lines 155-164,
in dict insertion order. -/
def important_clauses : List (String × List String) :=
  [("Confidentiality", ["confidential", "non-disclosure", "proprietary"]),
   ("Intellectual Property", ["intellectual property", "ip rights", "ownership"]),
   ("Dispute Resolution", ["dispute", "arbitration", "mediation"]),
   ("Force Majeure", ["force majeure", "act of god"]),
   ("Governing Law", ["governing law", "jurisdiction"]),
   ("Warranties", ["warrant", "guarantee"]),
   ("Non-Compete", ["non-compete", "non-competition"]),
   ("Assignment", ["assignment", "transfer of rights"])]

/-- detect_missing_clauses, lines 142-176: a category is missing when none of
its keywords occurs in the lower-cased text. -/
def detect_missing_clauses (contract_text : String) : List String :=
  let text_lower := pyLower contract_text
  (important_clauses.filter
    (fun p => !(p.2.any (fun keyword => containsSubstr text_lower keyword)))).map
    (fun p => p.1)

/-- The per-level weight table of the scorer, lines 192-198. -/
def risk_scores : List (String × Nat) :=
  [("CRITICAL", 100), ("HIGH", 50), ("MEDIUM", 20), ("LOW", 5), ("MINIMAL", 0)]

/-- Python `table.get(key, default)` on an association-list dict. -/
def dictGetD (table : List (String × Nat)) (key : String) (d : Nat) : Nat :=
  match table.find? (fun p => p.1 == key) with
  | some p => p.2
  | none => d

/-- calculate_overall_risk_score, lines 179-213. -/
def calculate_overall_risk_score (risks : List Risk) : String :=
  if risks.isEmpty then "MINIMAL"
  else
    let total_score := (risks.map (fun r => dictGetD risk_scores (r.level.getD "MEDIUM") 20)).sum
    if total_score ≥ 100 then "CRITICAL"
    else if total_score ≥ 50 then "HIGH"
    else if total_score ≥ 20 then "MEDIUM"
    else if total_score > 0 then "LOW"
    else "MINIMAL"

def recPayment1 : String :=
  "Review and clarify payment terms. Specify exact amounts, due dates, and payment methods."

def recPayment2 : String :=
  "Add late payment penalty clause to protect against delayed payments."

def recLiability1 : String :=
  "Negotiate a liability cap to limit financial exposure (e.g., total fees paid in last 12 months)."

def recLiability2 : String :=
  "Review and potentially limit indemnification obligations."

def recTermination1 : String :=
  "Clarify termination rights and notice periods for both parties."

def recTermination2 : String :=
  "Negotiate to reduce or remove early termination penalties."

def recConfidentiality : String :=
  "Add confidentiality clause to protect sensitive business information."

def recDispute : String :=
  "Include dispute resolution clause specifying arbitration or mediation process."

def recForceMajeure : String :=
  "Add force majeure clause to protect against unforeseen circumstances."

def recGoverningLaw : String :=
  "Specify governing law and jurisdiction for legal disputes."

def recIntellectualProperty : String :=
  "Clarify intellectual property ownership and usage rights."

def recConsultProfessional : String :=
  "Consider having this contract reviewed by a legal professional due to high number of identified risks."

/-- The recommendations accumulated by generate_automated_recommendations
before the catch-all entry, lines 227-281: one conditional block per category
in the fixed priority order. -/
def baseRecommendations (risks : List Risk) (missing_clauses : List String) : List String :=
  let risk_categories := risks.map (fun r => r.category.getD "")
  (if risk_categories.contains "Payment Terms" then [recPayment1, recPayment2] else []) ++
  (if risk_categories.contains "Liability" then [recLiability1, recLiability2] else []) ++
  (if risk_categories.contains "Termination" then [recTermination1, recTermination2] else []) ++
  (if missing_clauses.contains "Confidentiality" then [recConfidentiality] else []) ++
  (if missing_clauses.contains "Dispute Resolution" then [recDispute] else []) ++
  (if missing_clauses.contains "Force Majeure" then [recForceMajeure] else []) ++
  (if missing_clauses.contains "Governing Law" then [recGoverningLaw] else []) ++
  (if missing_clauses.contains "Intellectual Property" then [recIntellectualProperty] else [])

/-- generate_automated_recommendations, lines 216-288: the ordered category
blocks, the catch-all entry when more than 10 risks exist, then the cap at 10
entries. -/
def generate_automated_recommendations (risks : List Risk) (missing_clauses : List String) :
    List String :=
  (baseRecommendations risks missing_clauses ++
    (if risks.length > 10 then [recConsultProfessional] else [])).take 10

/-- The combined result of run_automated_risk_detection, lines 291-323. -/
structure DetectionResult where
  risks : List Risk
  missing_clauses : List String
  overall_risk : String
  risk_count : Nat
  recommendations : List String
deriving DecidableEq, Repr

/-- run_automated_risk_detection, lines 291-323. -/
def run_automated_risk_detection (contract_text : String) : DetectionResult :=
  let all_risks :=
    detect_payment_risks contract_text ++
    detect_liability_risks contract_text ++
    detect_termination_risks contract_text
  let missing := detect_missing_clauses contract_text
  { risks := all_risks
    missing_clauses := missing
    overall_risk := calculate_overall_risk_score all_risks
    risk_count := all_risks.length
    recommendations := generate_automated_recommendations all_risks missing }

/-! ## Comparator (contract_comparator.py, create_automated_comparison) -/

/-- The slice of an analysis dict the automated comparator reads.  A missing
`overall_risk` key is modelled by none (the code reads it twice with two
different defaults). -/
structure AnalysisDict where
  risks : List Risk
  overall_risk : Option String
  missing_clauses : List String
deriving DecidableEq, Repr

/-- The severity table of calculate_risk_score, lines 134-143: deliberately
distinct constants from risk_scores. -/
def comparison_risk_scores : List (String × Nat) :=
  [("CRITICAL", 100), ("HIGH", 75), ("MEDIUM", 50), ("LOW", 25), ("MINIMAL", 10)]

/-- calculate_risk_score, lines 134-143. -/
def calculate_risk_score (risk_level : String) : Nat :=
  dictGetD comparison_risk_scores risk_level 50

/-- count_risks_by_level, lines 88-93, read as the function from a level to
its count (reading an absent dict key counts as 0 occurrences). -/
def count_risks_by_level (risks : List Risk) : String → Nat :=
  fun level => (risks.map (fun r => r.level.getD "MEDIUM")).count level

/-- generate_automated_recommendation, lines 145-155.  The absolute score
difference is computed and unused, as in the source. -/
def generate_automated_recommendation (better : String) (score1 score2 : Nat) : String :=
  let _diff := max score1 score2 - min score1 score2
  if better = "CONTRACT1" then
    "Contract 1 appears more favorable with lower overall risk. Consider using Contract 1 as the base for negotiations."
  else if better = "CONTRACT2" then
    "Contract 2 appears more favorable with lower overall risk. Consider using Contract 2 as the base for negotiations."
  else
    "Both contracts have similar risk profiles. Review specific clauses to determine which terms are more favorable for your situation."

/-- The automated comparison record, lines 116-132.  The unique-missing
fields are Python sets, modelled as Finsets. -/
structure ComparisonResult where
  contract1_risk : String
  contract2_risk : String
  contract1_risk_count : Nat
  contract2_risk_count : Nat
  contract1_missing_count : Nat
  contract2_missing_count : Nat
  contract1_risks_by_level : String → Nat
  contract2_risks_by_level : String → Nat
  better_contract : String
  unique_to_contract1 : Finset String
  unique_to_contract2 : Finset String
  key_differences : List String
  recommendation : String
  ai_comparison : Bool

/-- create_automated_comparison, lines 72-132. -/
def create_automated_comparison (contract1_analysis contract2_analysis : AnalysisDict) :
    ComparisonResult :=
  let risk1_counts := count_risks_by_level contract1_analysis.risks
  let risk2_counts := count_risks_by_level contract2_analysis.risks
  let risk1_score := calculate_risk_score (contract1_analysis.overall_risk.getD "MEDIUM")
  let risk2_score := calculate_risk_score (contract2_analysis.overall_risk.getD "MEDIUM")
  let better_contract :=
    if risk1_score < risk2_score then "CONTRACT1"
    else if risk2_score < risk1_score then "CONTRACT2"
    else "NEUTRAL"
  let missing1 := contract1_analysis.missing_clauses.toFinset
  let missing2 := contract2_analysis.missing_clauses.toFinset
  { contract1_risk := contract1_analysis.overall_risk.getD "UNKNOWN"
    contract2_risk := contract2_analysis.overall_risk.getD "UNKNOWN"
    contract1_risk_count := contract1_analysis.risks.length
    contract2_risk_count := contract2_analysis.risks.length
    contract1_missing_count := contract1_analysis.missing_clauses.length
    contract2_missing_count := contract2_analysis.missing_clauses.length
    contract1_risks_by_level := risk1_counts
    contract2_risks_by_level := risk2_counts
    better_contract := better_contract
    unique_to_contract1 := missing2 \ missing1
    unique_to_contract2 := missing1 \ missing2
    key_differences := []
    recommendation := generate_automated_recommendation better_contract risk1_score risk2_score
    ai_comparison := false }

/-! ## Spec-side definitions (written from the words of the specification,
for the refinement claims) -/

/-- Modelled from the spec: the per-level weight table of section 4.2,
CRITICAL=100, HIGH=50, MEDIUM=20, LOW=5, MINIMAL=0. -/
def specLevelWeight : String → Nat
  | "CRITICAL" => 100
  | "HIGH" => 50
  | "MEDIUM" => 20
  | "LOW" => 5
  | _ => 0

/-- Modelled from the spec: the cascading threshold classifier of section
4.2. -/
def specClassify (total : Nat) : String :=
  if total ≥ 100 then "CRITICAL"
  else if total ≥ 50 then "HIGH"
  else if total ≥ 20 then "MEDIUM"
  else if total > 0 then "LOW"
  else "MINIMAL"

/-- Modelled from the spec: sum the weights, then classify. -/
def spec_score (levels : List String) : String :=
  specClassify ((levels.map specLevelWeight).sum)

/-- Severity order MINIMAL < LOW < MEDIUM < HIGH < CRITICAL as a rank. -/
def levelRank : String → Nat
  | "LOW" => 1
  | "MEDIUM" => 2
  | "HIGH" => 3
  | "CRITICAL" => 4
  | _ => 0

/-- The full candidate recommendation sequence in the fixed priority order of
the synthesizer (payment, liability, termination, then the missing-clause
categories, then the catch-all entry). -/
def masterRecommendationOrder : List String :=
  [recPayment1, recPayment2, recLiability1, recLiability2, recTermination1, recTermination2,
   recConfidentiality, recDispute, recForceMajeure, recGoverningLaw, recIntellectualProperty,
   recConsultProfessional]

/-! ## Helper lemmas -/

/-- On each of the five valid levels the weight table of the scorer agrees
with the weight table written from the spec. -/
lemma levelWeight_eq_spec : ∀ l ∈ risk_levels, dictGetD risk_scores l 20 = specLevelWeight l := by
  decide

/-! ## Claims -/

/-- C2: the score aggregator refines the spec description: on findings whose
levels are valid severity tokens it equals the sum-the-weights-then-classify
function written from the spec, the empty list scores MINIMAL, and two HIGH
findings score CRITICAL. -/
theorem claim_C2_score_aggregator :
    (∀ risks : List Risk,
        (∀ r ∈ risks, r.level.getD "MEDIUM" ∈ risk_levels) →
        calculate_overall_risk_score risks =
          spec_score (risks.map (fun r => r.level.getD "MEDIUM"))) ∧
    calculate_overall_risk_score [] = "MINIMAL" ∧
    calculate_overall_risk_score
      [{ level := some "HIGH", category := some "Payment Terms",
         description := "No clear payment terms found",
         impact := "Unclear payment obligations could lead to disputes" },
       { level := some "HIGH", category := some "Liability",
         description := "No liability cap specified",
         impact := "Potentially unlimited financial exposure" }] = "CRITICAL" := by
  refine ⟨?_, by decide, by decide⟩
  intro risks h
  by_cases hemp : risks.isEmpty
  · have : risks = [] := List.isEmpty_iff.mp hemp
    subst this
    decide
  · have hsum :
        risks.map (fun r => dictGetD risk_scores (r.level.getD "MEDIUM") 20) =
          (risks.map (fun r => r.level.getD "MEDIUM")).map specLevelWeight := by
      rw [List.map_map]
      exact List.map_congr_left (fun r hr => levelWeight_eq_spec _ (h r hr))
    simp only [calculate_overall_risk_score, hemp, if_false, spec_score, specClassify, hsum,
      Bool.false_eq_true]

/-- C3: the automated comparison computes unique_to_contract1 as
missing(contract2) minus missing(contract1) and unique_to_contract2 as
missing(contract1) minus missing(contract2); on the example where contract A
misses Force Majeure and contract B misses nothing, unique_to_contract1 is
empty and unique_to_contract2 is the singleton Force Majeure. -/
theorem claim_C3_comparator_unique_sets :
    (∀ contract1_analysis contract2_analysis : AnalysisDict,
        (create_automated_comparison contract1_analysis contract2_analysis).unique_to_contract1 =
          contract2_analysis.missing_clauses.toFinset \
            contract1_analysis.missing_clauses.toFinset ∧
        (create_automated_comparison contract1_analysis contract2_analysis).unique_to_contract2 =
          contract1_analysis.missing_clauses.toFinset \
            contract2_analysis.missing_clauses.toFinset) ∧
    (create_automated_comparison
        { risks := [], overall_risk := some "MEDIUM", missing_clauses := ["Force Majeure"] }
        { risks := [], overall_risk := some "MEDIUM",
          missing_clauses := [] }).unique_to_contract1 = ∅ ∧
    (create_automated_comparison
        { risks := [], overall_risk := some "MEDIUM", missing_clauses := ["Force Majeure"] }
        { risks := [], overall_risk := some "MEDIUM",
          missing_clauses := [] }).unique_to_contract2 = {"Force Majeure"} := by
  exact ⟨fun a1 a2 => ⟨rfl, rfl⟩, by decide, by decide⟩

/-- C6: on the empty string the detector reports all 8 missing-clause
categories, the payment detector produces exactly its 3 fixed findings, and
all 3 are members of the combined risk list of the automated detection. -/
theorem claim_C6_detector_on_empty :
    (run_automated_risk_detection "").missing_clauses =
      ["Confidentiality", "Intellectual Property", "Dispute Resolution", "Force Majeure",
       "Governing Law", "Warranties", "Non-Compete", "Assignment"] ∧
    detect_payment_risks "" =
      [{ level := some "HIGH", category := some "Payment Terms",
         description := "No clear payment terms found",
         impact := "Unclear payment obligations could lead to disputes" },
       { level := some "MEDIUM", category := some "Payment Terms",
         description := "No late payment terms specified",
         impact := "No protection against delayed payments" },
       { level := some "LOW", category := some "Payment Terms",
         description := "No detailed payment schedule",
         impact := "May cause confusion about when payments are due" }] ∧
    ∀ r ∈ detect_payment_risks "", r ∈ (run_automated_risk_detection "").risks := by
  decide

/-- The weight table of the scorer is monotone in the severity rank on the
five valid levels. -/
lemma levelWeight_mono : ∀ a ∈ risk_levels, ∀ b ∈ risk_levels,
    levelRank a ≤ levelRank b → dictGetD risk_scores a 20 ≤ dictGetD risk_scores b 20 := by
  decide

/-- Replacing one element of a list by one of larger measure does not
decrease the sum of the measures. -/
lemma sum_map_set_le {α : Type} (f : α → Nat) :
    ∀ (l : List α) (i : Nat) (hi : i < l.length) (x : α),
      f (l.get ⟨i, hi⟩) ≤ f x → (l.map f).sum ≤ ((l.set i x).map f).sum := by
  intro l
  induction l with
  | nil => intro i hi; simp at hi
  | cons a t ih =>
    intro i hi x hle
    cases i with
    | zero =>
      simp only [List.get, List.set, List.map, List.sum_cons] at *
      omega
    | succ n =>
      have hi2 : n < t.length := by
        simp only [List.length_cons] at hi
        omega
      simp only [List.get, List.set, List.map, List.sum_cons] at *
      have h3 := ih n hi2 x hle
      omega

/-- The cascading threshold classifier is monotone in the total, measured by
severity rank. -/
lemma specClassify_rank_mono {a b : Nat} (h : a ≤ b) :
    levelRank (specClassify a) ≤ levelRank (specClassify b) := by
  unfold specClassify
  split_ifs <;> first | decide | omega

/-- On a non-empty finding list the scorer is the classifier of the summed
weights. -/
lemma calculate_eq_classify (risks : List Risk) (h : risks.isEmpty = false) :
    calculate_overall_risk_score risks =
      specClassify ((risks.map (fun r => dictGetD risk_scores (r.level.getD "MEDIUM") 20)).sum) := by
  simp only [calculate_overall_risk_score, h, Bool.false_eq_true, if_false, specClassify]

/-- C7: replacing one finding level by a strictly more severe valid level,
with the finding count unchanged, never decreases the overall risk returned
by the score aggregator, in the severity order MINIMAL, LOW, MEDIUM, HIGH,
CRITICAL. -/
theorem claim_C7_score_monotone (risks : List Risk) (i : Nat) (hi : i < risks.length)
    (oldL newL : String)
    (hold : (risks.get ⟨i, hi⟩).level = some oldL)
    (hOld : oldL ∈ risk_levels) (hNew : newL ∈ risk_levels)
    (hrank : levelRank oldL < levelRank newL) :
    levelRank (calculate_overall_risk_score risks) ≤
      levelRank (calculate_overall_risk_score
        (risks.set i { risks.get ⟨i, hi⟩ with level := some newL })) := by
  have hne : risks.isEmpty = false := by
    cases risks with
    | nil => simp at hi
    | cons a t => rfl
  have hne2 : (risks.set i { risks.get ⟨i, hi⟩ with level := some newL }).isEmpty = false := by
    cases hs : risks.set i { risks.get ⟨i, hi⟩ with level := some newL } with
    | nil =>
      have := List.length_set risks i ({ risks.get ⟨i, hi⟩ with level := some newL })
      rw [hs] at this
      simp at this
      omega
    | cons a t => rfl
  rw [calculate_eq_classify risks hne, calculate_eq_classify _ hne2]
  apply specClassify_rank_mono
  apply sum_map_set_le (fun r => dictGetD risk_scores (r.level.getD "MEDIUM") 20) risks i hi
  simp only [hold, Option.getD_some]
  exact levelWeight_mono oldL hOld newL hNew (Nat.le_of_lt hrank)

/-- C7 witness: a concrete one-finding list where lifting LOW to HIGH raises
the overall risk from LOW to HIGH. -/
theorem claim_C7_witness :
    levelRank (calculate_overall_risk_score
      [{ level := some "LOW", category := some "Payment Terms",
         description := "No detailed payment schedule",
         impact := "May cause confusion about when payments are due" }]) ≤
    levelRank (calculate_overall_risk_score
      [{ level := some "HIGH", category := some "Payment Terms",
         description := "No detailed payment schedule",
         impact := "May cause confusion about when payments are due" }]) :=
  claim_C7_score_monotone
    [{ level := some "LOW", category := some "Payment Terms",
       description := "No detailed payment schedule",
       impact := "May cause confusion about when payments are due" }]
    0 (by decide) "LOW" "HIGH" rfl (by decide) (by decide) (by decide)

/-- A conditional block is a sublist of its content. -/
lemma ite_sublist (c : Prop) [Decidable c] (xs : List String) :
    List.Sublist (if c then xs else []) xs := by
  split
  · exact List.Sublist.refl xs
  · exact List.nil_sublist xs

/-- The pre-cap recommendation list is a sublist of the fixed candidate
sequence, in order. -/
lemma baseRecommendations_sublist (risks : List Risk) (missing_clauses : List String) :
    List.Sublist (baseRecommendations risks missing_clauses)
      [recPayment1, recPayment2, recLiability1, recLiability2, recTermination1, recTermination2,
       recConfidentiality, recDispute, recForceMajeure, recGoverningLaw,
       recIntellectualProperty] := by
  show List.Sublist (baseRecommendations risks missing_clauses)
    ((((((([recPayment1, recPayment2] ++ [recLiability1, recLiability2]) ++
      [recTermination1, recTermination2]) ++ [recConfidentiality]) ++ [recDispute]) ++
      [recForceMajeure]) ++ [recGoverningLaw]) ++ [recIntellectualProperty])
  unfold baseRecommendations
  exact List.Sublist.append (List.Sublist.append (List.Sublist.append (List.Sublist.append
    (List.Sublist.append (List.Sublist.append (List.Sublist.append
      (ite_sublist _ _) (ite_sublist _ _)) (ite_sublist _ _)) (ite_sublist _ _))
      (ite_sublist _ _)) (ite_sublist _ _)) (ite_sublist _ _)) (ite_sublist _ _)

/-- C8 counterexample: with 11 findings covering all three risk categories
and all five recommendation-bearing missing clauses, the pre-cap list already
holds 11 entries, so the catch-all consult-a-professional entry is cut by the
cap at 10 even though the risk list has more than 10 findings; this refutes
the claim that the output always includes the catch-all when more than 10
findings exist. -/
theorem claim_C8_counterexample :
    let risks11 : List Risk :=
      [{ level := some "HIGH", category := some "Payment Terms", description := "", impact := "" },
       { level := some "HIGH", category := some "Liability", description := "", impact := "" },
       { level := some "HIGH", category := some "Termination", description := "", impact := "" },
       { level := some "HIGH", category := some "Payment Terms", description := "", impact := "" },
       { level := some "HIGH", category := some "Payment Terms", description := "", impact := "" },
       { level := some "HIGH", category := some "Payment Terms", description := "", impact := "" },
       { level := some "HIGH", category := some "Payment Terms", description := "", impact := "" },
       { level := some "HIGH", category := some "Payment Terms", description := "", impact := "" },
       { level := some "HIGH", category := some "Payment Terms", description := "", impact := "" },
       { level := some "HIGH", category := some "Payment Terms", description := "", impact := "" },
       { level := some "HIGH", category := some "Payment Terms", description := "", impact := "" }]
    risks11.length > 10 ∧
    recConsultProfessional ∉
      generate_automated_recommendations risks11
        ["Confidentiality", "Dispute Resolution", "Force Majeure", "Governing Law",
         "Intellectual Property"] := by
  decide

/-- C8 (amended): the recommendation synthesizer returns at most 10 entries,
its output follows the fixed category priority order (it is an ordered
sublist of the candidate sequence payment, liability, termination,
confidentiality, dispute, force majeure, governing law, intellectual
property, catch-all), and when the risk list has more than 10 findings the
catch-all consult-a-professional entry is included provided fewer than 10
other recommendations were generated. -/
theorem claim_C8_amended (risks : List Risk) (missing_clauses : List String) :
    (generate_automated_recommendations risks missing_clauses).length ≤ 10 ∧
    List.Sublist (generate_automated_recommendations risks missing_clauses)
      masterRecommendationOrder ∧
    (risks.length > 10 → (baseRecommendations risks missing_clauses).length < 10 →
      recConsultProfessional ∈ generate_automated_recommendations risks missing_clauses) := by
  refine ⟨?_, ?_, ?_⟩
  · rw [generate_automated_recommendations, List.length_take]
    exact min_le_left _ _
  · apply List.Sublist.trans (List.take_sublist _ _)
    show List.Sublist
      (baseRecommendations risks missing_clauses ++
        (if risks.length > 10 then [recConsultProfessional] else []))
      ([recPayment1, recPayment2, recLiability1, recLiability2, recTermination1, recTermination2,
        recConfidentiality, recDispute, recForceMajeure, recGoverningLaw,
        recIntellectualProperty] ++ [recConsultProfessional])
    exact List.Sublist.append (baseRecommendations_sublist risks missing_clauses)
      (ite_sublist _ _)
  · intro h10 hlt
    rw [generate_automated_recommendations, if_pos h10]
    rw [List.take_of_length_le]
    · exact List.mem_append_right _ (List.mem_singleton_self _)
    · rw [List.length_append, List.length_singleton]
      omega

/-- C8 witness: the same 11-finding list with no missing clauses generates
only 6 category recommendations, so the catch-all entry is present and the
output respects the cap. -/
theorem claim_C8_witness :
    ([{ level := some "HIGH", category := some "Payment Terms", description := "", impact := "" },
      { level := some "HIGH", category := some "Liability", description := "", impact := "" },
      { level := some "HIGH", category := some "Termination", description := "", impact := "" },
      { level := some "HIGH", category := some "Payment Terms", description := "", impact := "" },
      { level := some "HIGH", category := some "Payment Terms", description := "", impact := "" },
      { level := some "HIGH", category := some "Payment Terms", description := "", impact := "" },
      { level := some "HIGH", category := some "Payment Terms", description := "", impact := "" },
      { level := some "HIGH", category := some "Payment Terms", description := "", impact := "" },
      { level := some "HIGH", category := some "Payment Terms", description := "", impact := "" },
      { level := some "HIGH", category := some "Payment Terms", description := "", impact := "" },
      { level := some "HIGH", category := some "Payment Terms", description := "", impact := "" }] :
        List Risk).length > 10 ∧
    recConsultProfessional ∈
      generate_automated_recommendations
        [{ level := some "HIGH", category := some "Payment Terms", description := "", impact := "" },
         { level := some "HIGH", category := some "Liability", description := "", impact := "" },
         { level := some "HIGH", category := some "Termination", description := "", impact := "" },
         { level := some "HIGH", category := some "Payment Terms", description := "", impact := "" },
         { level := some "HIGH", category := some "Payment Terms", description := "", impact := "" },
         { level := some "HIGH", category := some "Payment Terms", description := "", impact := "" },
         { level := some "HIGH", category := some "Payment Terms", description := "", impact := "" },
         { level := some "HIGH", category := some "Payment Terms", description := "", impact := "" },
         { level := some "HIGH", category := some "Payment Terms", description := "", impact := "" },
         { level := some "HIGH", category := some "Payment Terms", description := "", impact := "" },
         { level := some "HIGH", category := some "Payment Terms", description := "", impact := "" }]
        [] :=
  ⟨by decide,
    (claim_C8_amended
      [{ level := some "HIGH", category := some "Payment Terms", description := "", impact := "" },
       { level := some "HIGH", category := some "Liability", description := "", impact := "" },
       { level := some "HIGH", category := some "Termination", description := "", impact := "" },
       { level := some "HIGH", category := some "Payment Terms", description := "", impact := "" },
       { level := some "HIGH", category := some "Payment Terms", description := "", impact := "" },
       { level := some "HIGH", category := some "Payment Terms", description := "", impact := "" },
       { level := some "HIGH", category := some "Payment Terms", description := "", impact := "" },
       { level := some "HIGH", category := some "Payment Terms", description := "", impact := "" },
       { level := some "HIGH", category := some "Payment Terms", description := "", impact := "" },
       { level := some "HIGH", category := some "Payment Terms", description := "", impact := "" },
       { level := some "HIGH", category := some "Payment Terms", description := "", impact := "" }]
      []).2.2 (by decide) (by decide)⟩

/-- C5: the parser is not total: on an input whose risks section carries a
Risk Level line before any item marker, the next continuation line reads the
absent text key of the current item (a KeyError in the source, modelled as
none).  This is the failing input of the claim. -/
theorem claim_C5_parser_keyerror :
    parse_analysis_response "RISK ASSESSMENT\nRisk Level: HIGH\nxyz" = none := by
  decide

/-- C4: inside the risks section, a non-empty line that is not a section
header and matches the item-marker test first flushes the accumulated risk
item (when one exists) into the risk list and then starts a fresh
accumulator holding the stripped marker text at the default MEDIUM level. -/
theorem claim_C4_marker_starts_new_item (st : ScanState) (rawLine : String)
    (hsec : st.current_section = some SectionTag.risks)
    (hne : pyStrip rawLine ≠ "")
    (hhdr : sectionOfLine (pyStrip rawLine) = none)
    (hmark : isRiskItemMarker (pyStrip rawLine) = true) :
    processLine st rawLine = some { st with
      risks := st.risks ++
        (match st.current_item with
         | some it => [it]
         | none => [])
      current_item := some { text := some (pyStrip (lstrip "#* ".data (pyStrip rawLine)))
                             level := "MEDIUM" } } := by
  simp only [processLine, handleRisks, hne, hhdr, hsec, hmark, if_neg, if_true, reduceIte]

/-- C4 witness: a concrete marker line flushes the pending item and opens a
new accumulator. -/
theorem claim_C4_witness :
    processLine
      { summary := "", overall_risk := "MEDIUM", key_terms := [],
        risks := [], red_flags := [], missing_clauses := [], recommendations := [],
        current_section := some SectionTag.risks,
        current_item := some { text := some "Risk 1: old item", level := "HIGH" } }
      "**Risk 2: new item" =
    some
      { summary := "", overall_risk := "MEDIUM", key_terms := [],
        risks := [{ text := some "Risk 1: old item", level := "HIGH" }],
        red_flags := [], missing_clauses := [], recommendations := [],
        current_section := some SectionTag.risks,
        current_item := some { text := some "Risk 2: new item", level := "MEDIUM" } } :=
  claim_C4_marker_starts_new_item
    { summary := "", overall_risk := "MEDIUM", key_terms := [],
      risks := [], red_flags := [], missing_clauses := [], recommendations := [],
      current_section := some SectionTag.risks,
      current_item := some { text := some "Risk 1: old item", level := "HIGH" } }
    "**Risk 2: new item" rfl (by decide) (by decide) (by decide)

/-- C9: when the scan of the split input ends inside the risks section with
an in-flight item, the parser still succeeds and its risk list is the
accumulated list with that final item flushed at the end. -/
theorem claim_C9_end_of_scan_flush (s : String) (st : ScanState) (item : RiskEntry)
    (hscan : scanLines (pySplit s "\n") initState = some st)
    (hsec : st.current_section = some SectionTag.risks)
    (hitem : st.current_item = some item) :
    ∃ r, parse_analysis_response s = some r ∧ r.risks = st.risks ++ [item] := by
  refine ⟨finalize st, ?_, ?_⟩
  · unfold parse_analysis_response
    rw [hscan]
  · show flushedRisks st = st.risks ++ [item]
    unfold flushedRisks
    rw [hitem, hsec]

/-- C9 witness: a risks section holding exactly one item and no further
section header still yields that item. -/
theorem claim_C9_witness :
    ∃ r, parse_analysis_response "RISK ASSESSMENT\n**Risk 1: Unlimited liability" = some r ∧
      r.risks = [] ++ [{ text := some "Risk 1: Unlimited liability", level := "MEDIUM" }] :=
  claim_C9_end_of_scan_flush "RISK ASSESSMENT\n**Risk 1: Unlimited liability"
    { summary := "", overall_risk := "MEDIUM", key_terms := [],
      risks := [], red_flags := [], missing_clauses := [], recommendations := [],
      current_section := some SectionTag.risks,
      current_item := some { text := some "Risk 1: Unlimited liability", level := "MEDIUM" } }
    { text := some "Risk 1: Unlimited liability", level := "MEDIUM" }
    (by decide) (by decide) (by decide)

/-- The summary handler leaves overall_risk unchanged when no severity token
occurs in the line. -/
lemma handleSummary_overall (st : ScanState) (line : String)
    (hf : findToken line = none) :
    (handleSummary st line).overall_risk = st.overall_risk := by
  unfold handleSummary
  split
  · rfl
  · simp only [hf]
    split
    · split <;> rfl
    · split <;> rfl

/-- The key-terms handler leaves overall_risk unchanged. -/
lemma handleKeyTerms_overall (st : ScanState) (line : String) :
    (handleKeyTerms st line).overall_risk = st.overall_risk := by
  simp only [handleKeyTerms]
  split
  · split <;> rfl
  · rfl

/-- The red-flags and missing-clauses handler leaves overall_risk
unchanged. -/
lemma handleBulletList_overall (st : ScanState) (sec : SectionTag) (line : String) :
    (handleBulletList st sec line).overall_risk = st.overall_risk := by
  simp only [handleBulletList]
  split
  · split
    · split <;> rfl
    · rfl
  · rfl

/-- The recommendations handler leaves overall_risk unchanged. -/
lemma handleRecommendations_overall (st : ScanState) (line : String) :
    (handleRecommendations st line).overall_risk = st.overall_risk := by
  simp only [handleRecommendations]
  split
  · split <;> rfl
  · rfl

/-- The risks handler leaves overall_risk unchanged whenever it succeeds. -/
lemma handleRisks_overall (st : ScanState) (line : String) (st1 : ScanState)
    (h : handleRisks st line = some st1) :
    st1.overall_risk = st.overall_risk := by
  unfold handleRisks at h
  split at h
  · cases h
    rfl
  · split at h
    · split at h
      · split at h <;> (cases h; rfl)
      · cases h
        rfl
    · split at h
      · cases h
        rfl
      · split at h
        · cases h
        · cases h
          rfl

/-- One scan step preserves overall_risk when the stripped line holds no
severity token. -/
lemma processLine_overall (st : ScanState) (rawLine : String) (st1 : ScanState)
    (h : processLine st rawLine = some st1)
    (hf : findToken (pyStrip rawLine) = none) :
    st1.overall_risk = st.overall_risk := by
  simp only [processLine] at h
  split at h
  · cases h
    rfl
  · split at h
    · cases h
      rfl
    · split at h
      · cases h
        rfl
      · cases h
        exact handleSummary_overall st (pyStrip rawLine) hf
      · cases h
        exact handleKeyTerms_overall st (pyStrip rawLine)
      · exact handleRisks_overall st (pyStrip rawLine) st1 h
      · cases h
        exact handleBulletList_overall st SectionTag.red_flags (pyStrip rawLine)
      · cases h
        exact handleBulletList_overall st SectionTag.missing_clauses (pyStrip rawLine)
      · cases h
        exact handleRecommendations_overall st (pyStrip rawLine)

/-- The whole scan preserves overall_risk when no line holds a severity
token. -/
lemma scanLines_overall : ∀ (ls : List String) (st st1 : ScanState),
    scanLines ls st = some st1 →
    (∀ l ∈ ls, findToken (pyStrip l) = none) →
    st1.overall_risk = st.overall_risk := by
  intro ls
  induction ls with
  | nil =>
    intro st st1 h _
    cases h
    rfl
  | cons l ls ih =>
    intro st st1 h hall
    unfold scanLines at h
    cases hp : processLine st l with
    | none => rw [hp] at h; cases h
    | some st2 =>
      rw [hp] at h
      have h1 := processLine_overall st l st2 hp (hall l (List.mem_cons_self l ls))
      have h2 := ih st2 st1 h (fun x hx => hall x (List.mem_cons_of_mem l hx))
      rw [h2, h1]

/-- C10: whenever the parser succeeds on an input in whose lines the token
search finds no severity token, the returned overall_risk is the default
MEDIUM (in particular it is never UNKNOWN); and on the empty input the
parser returns the default record with empty summary and empty lists. -/
theorem claim_C10_default_medium :
    (∀ (s : String) (r : AnalysisResult),
        (∀ l ∈ pySplit s "\n", findToken (pyStrip l) = none) →
        parse_analysis_response s = some r →
        r.overall_risk = "MEDIUM") ∧
    parse_analysis_response "" =
      some { summary := "", overall_risk := "MEDIUM", key_terms := [], risks := [],
             red_flags := [], missing_clauses := [], recommendations := [] } := by
  constructor
  · intro s r hall hp
    unfold parse_analysis_response at hp
    cases hscan : scanLines (pySplit s "\n") initState with
    | none => rw [hscan] at hp; cases hp
    | some st =>
      rw [hscan] at hp
      cases hp
      have h1 := scanLines_overall (pySplit s "\n") initState st hscan hall
      show st.overall_risk = "MEDIUM"
      rw [h1]
      rfl
  · decide

/-- C10 witness: a concrete token-free input parses to a record whose
overall_risk is MEDIUM. -/
theorem claim_C10_witness :
    (∀ l ∈ pySplit "hello there\ngeneral text" "\n", findToken (pyStrip l) = none) ∧
    ({ summary := "", overall_risk := "MEDIUM", key_terms := [], risks := [],
       red_flags := [], missing_clauses := [], recommendations := [] } :
        AnalysisResult).overall_risk = "MEDIUM" :=
  ⟨by decide,
    claim_C10_default_medium.1 "hello there\ngeneral text"
      { summary := "", overall_risk := "MEDIUM", key_terms := [], risks := [],
        red_flags := [], missing_clauses := [], recommendations := [] }
      (by decide) (by decide)⟩

/-- The Boolean infix test agrees with the infix relation. -/
lemma isInfixOfL_iff (n : List Char) : ∀ (h : List Char), isInfixOfL n h = true ↔ n <:+: h := by
  intro h
  induction h with
  | nil =>
    simp [isInfixOfL, List.isEmpty_iff]
  | cons c rest ih =>
    simp [isInfixOfL, Bool.or_eq_true, List.isPrefixOf_iff_prefix, ih, List.infix_cons_iff]

/-- The split worker always returns at least one part. -/
lemma splitOnCharsFuel_length_pos (sep : List Char) : ∀ (fuel : Nat) (s : List Char),
    0 < (splitOnCharsFuel sep fuel s).length := by
  intro fuel s
  match fuel, s with
  | fuel, [] => simp [splitOnCharsFuel]
  | 0, c :: rest => simp [splitOnCharsFuel]
  | fuel + 1, c :: rest =>
    simp only [splitOnCharsFuel]
    split
    · simp
    · split <;> simp

/-- When the non-empty separator occurs in the input, the split has more
than one part. -/
lemma splitOnCharsFuel_length_gt_one (sep : List Char) (hsep : sep ≠ []) :
    ∀ (fuel : Nat) (s : List Char), s.length ≤ fuel →
      isInfixOfL sep s = true → 1 < (splitOnCharsFuel sep fuel s).length := by
  intro fuel
  induction fuel with
  | zero =>
    intro s hlen hinf
    have hs : s = [] := List.length_eq_zero.mp (Nat.le_zero.mp hlen)
    subst hs
    simp only [isInfixOfL] at hinf
    exact absurd (List.isEmpty_iff.mp hinf) hsep
  | succ fuel ih =>
    intro s hlen hinf
    match s with
    | [] =>
      simp only [isInfixOfL] at hinf
      exact absurd (List.isEmpty_iff.mp hinf) hsep
    | c :: rest =>
      simp only [splitOnCharsFuel]
      split
      · have h1 := splitOnCharsFuel_length_pos sep fuel (List.drop (sep.length - 1) rest)
        simp only [List.length_cons]
        omega
      · rename_i hnp
        have hrest : isInfixOfL sep rest = true := by
          simp only [isInfixOfL] at hinf
          simp only [Bool.or_eq_true] at hinf
          rcases hinf with hh | hh
          · exact absurd hh hnp
          · exact hh
        have hlen2 : rest.length ≤ fuel := by
          simp only [List.length_cons] at hlen
          omega
        have h2 := ih rest hlen2 hrest
        split
        · rename_i heq
          have h3 := splitOnCharsFuel_length_pos sep fuel rest
          rw [heq] at h3
          simp at h3
        · rename_i p ps heq
          rw [heq] at h2
          simp only [List.length_cons] at h2 ⊢
          omega

/-- C1 counterexample: a scan state holding one risks-section item whose text
carries the marker followed by the short text Do X., with no direct
recommendations.  The fallback discards the lifted text because it is not
longer than 20 characters, so the parsed recommendations do not contain
Do X., refuting the claim as stated. -/
theorem claim_C1_counterexample :
    let st : ScanState :=
      { summary := "", overall_risk := "MEDIUM", key_terms := [],
        risks := [{ text := some "Risk 1: harsh terms. **Recommendation**: Do X.",
                    level := "HIGH" }],
        red_flags := [], missing_clauses := [], recommendations := [],
        current_section := some SectionTag.risks, current_item := none }
    (∃ e ∈ st.risks, containsSubstr (e.text.getD "") "**Recommendation**: Do X." = true) ∧
    st.recommendations.length < 2 ∧
    "Do X." ∉ (finalize st).recommendations := by
  decide

/-- C1 (amended): when fewer than 2 direct recommendations were collected
and a risks-section item text carries the marker, the trimmed text lifted
after the marker is appended to the recommendations, provided it is
non-empty and longer than 20 characters. -/
theorem claim_C1_fallback_amended (st : ScanState) (e : RiskEntry) (t recText : String)
    (hlen : st.recommendations.length < 2)
    (he : e ∈ (finalize st).risks)
    (ht : e.text = some t)
    (hmark : containsSubstr t "**Recommendation**:" = true)
    (hrec : recText = pyStrip ((pySplit t "ecommendation**:").getD 1 ""))
    (hne : recText ≠ "")
    (hlong : pyLen recText > 20) :
    recText ∈ (finalize st).recommendations := by
  have hstar : containsSubstr t "**" = true := by
    have hsub : isInfixOfL "**".data "**Recommendation**:".data = true := by decide
    unfold containsSubstr at hmark ⊢
    rw [isInfixOfL_iff] at hsub hmark ⊢
    exact hsub.trans hmark
  have hsep : containsSubstr t "ecommendation**:" = true := by
    have hsub : isInfixOfL "ecommendation**:".data "**Recommendation**:".data = true := by decide
    unfold containsSubstr at hmark ⊢
    rw [isInfixOfL_iff] at hsub hmark ⊢
    exact hsub.trans hmark
  have hparts : (pySplit t "ecommendation**:").length > 1 := by
    unfold pySplit
    rw [List.length_map]
    apply splitOnCharsFuel_length_gt_one
    · decide
    · exact le_refl _
    · exact hsep
  have hfb : fallbackFromRisk e = some recText := by
    simp only [fallbackFromRisk, ht, Option.getD_some, hmark, hstar, Bool.true_or, if_true]
    rw [if_pos hparts, ← hrec, if_pos ⟨hne, hlong⟩]
  have he2 : e ∈ flushedRisks st := he
  have hrecs : (finalize st).recommendations =
      st.recommendations ++ (flushedRisks st).filterMap fallbackFromRisk := by
    simp only [finalize]
    rw [if_pos hlen]
  rw [hrecs]
  exact List.mem_append_right _ (List.mem_filterMap.mpr ⟨e, he2, hfb⟩)

/-- C1 witness: a concrete state whose single risk text embeds the marker
with a 35-character recommendation, which the fallback lifts. -/
theorem claim_C1_witness :
    "Negotiate a cap on total liability." ∈
      (finalize
        { summary := "", overall_risk := "MEDIUM", key_terms := [],
          risks := [{ text := some "Risk 1: harsh. **Recommendation**: Negotiate a cap on total liability.",
                      level := "HIGH" }],
          red_flags := [], missing_clauses := [], recommendations := [],
          current_section := none, current_item := none }).recommendations :=
  claim_C1_fallback_amended
    { summary := "", overall_risk := "MEDIUM", key_terms := [],
      risks := [{ text := some "Risk 1: harsh. **Recommendation**: Negotiate a cap on total liability.",
                  level := "HIGH" }],
      red_flags := [], missing_clauses := [], recommendations := [],
      current_section := none, current_item := none }
    { text := some "Risk 1: harsh. **Recommendation**: Negotiate a cap on total liability.",
      level := "HIGH" }
    "Risk 1: harsh. **Recommendation**: Negotiate a cap on total liability."
    "Negotiate a cap on total liability."
    (by decide) (by decide) rfl (by decide) (by decide) (by decide) (by decide)

/-- C2 witness: the refinement conjunct applied to a concrete two-finding
list. -/
theorem claim_C2_witness :
    (∀ r : Risk,
        r ∈ [{ level := some "CRITICAL", category := some "Liability",
               description := "Unlimited liability clause detected",
               impact := "Unlimited financial exposure in case of breach" },
             { level := some "LOW", category := some "Payment Terms",
               description := "No detailed payment schedule",
               impact := "May cause confusion about when payments are due" }] →
        r.level.getD "MEDIUM" ∈ risk_levels) ∧
    calculate_overall_risk_score
      [{ level := some "CRITICAL", category := some "Liability",
         description := "Unlimited liability clause detected",
         impact := "Unlimited financial exposure in case of breach" },
       { level := some "LOW", category := some "Payment Terms",
         description := "No detailed payment schedule",
         impact := "May cause confusion about when payments are due" }] =
      spec_score
        (List.map (fun r : Risk => r.level.getD "MEDIUM")
          [{ level := some "CRITICAL", category := some "Liability",
             description := "Unlimited liability clause detected",
             impact := "Unlimited financial exposure in case of breach" },
           { level := some "LOW", category := some "Payment Terms",
             description := "No detailed payment schedule",
             impact := "May cause confusion about when payments are due" }]) :=
  ⟨by decide,
    claim_C2_score_aggregator.1
      [{ level := some "CRITICAL", category := some "Liability",
         description := "Unlimited liability clause detected",
         impact := "Unlimited financial exposure in case of breach" },
       { level := some "LOW", category := some "Payment Terms",
         description := "No detailed payment schedule",
         impact := "May cause confusion about when payments are due" }]
      (by decide)⟩

/-- C6 witness: the membership conjunct applied to the first fixed payment
finding. -/
theorem claim_C6_witness :
    ({ level := some "HIGH", category := some "Payment Terms",
       description := "No clear payment terms found",
       impact := "Unclear payment obligations could lead to disputes" } : Risk) ∈
      (run_automated_risk_detection "").risks :=
  claim_C6_detector_on_empty.2.2
    { level := some "HIGH", category := some "Payment Terms",
      description := "No clear payment terms found",
      impact := "Unclear payment obligations could lead to disputes" }
    (by decide)
